import Mathlib

/-!
Verification development for the backend-selection and accelerated-execution
subsystem implemented in `paddlex/inference/models/common/static_infer.py`.

The Python source is shallowly embedded: pure helpers become Lean functions;
the stateful calibration / configuration / construction paths become explicit
state-passing functions that additionally return a trace of their externally
observable effects (tensor feeds, native inference runs, filesystem writes,
accelerator compiler invocations).  Exceptions raised by the Python code are
embedded as an `Option String` error component (or `Except`), carrying the
message of the exception raised at that point; whenever an exception is
raised, the effects performed up to that point are exactly the ones recorded
in the returned trace.
-/

namespace StaticInferModel

/-- A tensor shape, as the Python code manipulates it (a list of dimension
sizes). -/
abbrev Shape := List Nat

/-- Embeds `lazy_paddle.inference.DataType`, the enumeration of element types
a predictor can declare for its input handles.  The members are the ones the
native inference API exposes; the repository code names the first six, and
`FLOAT16`, `BFLOAT16` and `BOOL` are the remaining declared kinds, which the
repository maps to no portable type. -/
inductive PDDataType
  | FLOAT64
  | FLOAT32
  | INT64
  | INT32
  | UINT8
  | INT8
  | FLOAT16
  | BFLOAT16
  | BOOL
deriving DecidableEq, Repr

/-- Embeds the portable numpy element types the repository converts to. -/
inductive NpDType
  | float64
  | float32
  | int64
  | int32
  | uint8
  | int8
deriving DecidableEq, Repr

/-- Embeds `_pd_dtype_to_np_dtype`: the chain of `if`/`elif` comparisons of
`static_infer.py`, with the final `else` raising `TypeError` embedded as
`Except.error`. -/
def pd_dtype_to_np_dtype : PDDataType → Except String NpDType
  | .FLOAT64 => .ok .float64
  | .FLOAT32 => .ok .float32
  | .INT64 => .ok .int64
  | .INT32 => .ok .int32
  | .UINT8 => .ok .uint8
  | .INT8 => .ok .int8
  | _ => .error "Unsupported data type"

/-- Bit width of each declared element type (reference classification used to
state the spec's notion of "32/64-bit floating point and signed/unsigned
8/32/64-bit integer kinds"). -/
def pdBitWidth : PDDataType → Nat
  | .FLOAT64 => 64
  | .FLOAT32 => 32
  | .INT64 => 64
  | .INT32 => 32
  | .UINT8 => 8
  | .INT8 => 8
  | .FLOAT16 => 16
  | .BFLOAT16 => 16
  | .BOOL => 1

/-- Whether a declared element type is a floating-point kind. -/
def pdIsFloat : PDDataType → Bool
  | .FLOAT64 => true
  | .FLOAT32 => true
  | .FLOAT16 => true
  | .BFLOAT16 => true
  | _ => false

/-- Whether a declared element type is a (signed or unsigned) integer kind
(`BOOL` is not an integer kind). -/
def pdIsInteger : PDDataType → Bool
  | .INT64 => true
  | .INT32 => true
  | .UINT8 => true
  | .INT8 => true
  | _ => false

/-- Modelled from the spec: "element type preserved per input's declared
numeric kind (floating 32/64-bit, signed/unsigned 8/32/64-bit integer)" — the
set of declared element types the spec says the portable conversion must
accept. -/
def specSupportedKind (d : PDDataType) : Bool :=
  (pdIsFloat d && (pdBitWidth d == 32 || pdBitWidth d == 64)) ||
    (pdIsInteger d &&
      (pdBitWidth d == 8 || pdBitWidth d == 32 || pdBitWidth d == 64))

/-- The `(min_shape, opt_shape, max_shape)` triple stored per input name in
`dynamic_shapes`. -/
structure Shape3 where
  minS : Shape
  optS : Shape
  maxS : Shape
deriving DecidableEq, Repr

/-- The `(min, opt, max)` sample-value triple stored per input name in
`dynamic_shape_input_data` (each component is the flat list of values that
`np.array(...)` is built from). -/
structure Data3 where
  minD : List Int
  optD : List Int
  maxD : List Int
deriving DecidableEq, Repr

/-- Externally observable effect of the shape-range calibrator on its
throwaway predictor: `feed name shape` embeds
`handle.reshape(arr.shape); handle.copy_from_cpu(arr)` for the input handle
named `name`; `run` embeds `predictor.run()`; `flush` stands for an explicit
flush/close of the shape-range recording (the native API's deterministic way
of committing the profile), which the source would have to emit to flush the
profile explicitly. -/
inductive CalibEvent
  | feed (name : String) (shape : Shape)
  | run
  | flush
deriving DecidableEq, Repr

/-- One pass of the feed loop body of `_collect_trt_shape_range_info`: feed
every array of the dict (in insertion order), then run inference once. -/
def feedPhase (arrs : List (String × Shape)) : List CalibEvent :=
  arrs.map (fun p => CalibEvent.feed p.1 p.2) ++ [CalibEvent.run]

/-- Embeds the array-building loop of `_collect_trt_shape_range_info`
(lines building `min_arrs`, `opt_arrs`, `max_arrs`): for each entry of
`dynamic_shapes` in order, the input handle's dtype is converted (raising
`TypeError` on unsupported types), and the three arrays are built either from
`dynamic_shape_input_data` reshaped to the declared shapes (raising if the
flat data cannot be reshaped, i.e. its length differs from the shape's
element count) or as `np.ones` of the declared shapes.  Arrays are modelled by
their shapes, which is all the later feeds observe. -/
def buildArrs (dtypeOf : String → PDDataType)
    (dynamicShapes : List (String × Shape3))
    (inputData : List (String × Data3)) :
    Except String
      (List (String × Shape) × List (String × Shape) × List (String × Shape)) :=
  match dynamicShapes with
  | [] => .ok ([], [], [])
  | (name, shapes) :: rest =>
    match pd_dtype_to_np_dtype (dtypeOf name) with
    | .error e => .error e
    | .ok _ =>
      let entry := inputData.find? (fun p => p.1 == name)
      let arrsOk : Bool :=
        match entry with
        | some (_, d) =>
          d.minD.length == shapes.minS.prod &&
            d.optD.length == shapes.optS.prod &&
              d.maxD.length == shapes.maxS.prod
        | none => true
      if arrsOk then
        match buildArrs dtypeOf rest inputData with
        | .error e => .error e
        | .ok (mins, opts, maxs) =>
          .ok ((name, shapes.minS) :: mins, (name, shapes.optS) :: opts,
            (name, shapes.maxS) :: maxs)
      else
        .error ("cannot reshape array for input " ++ name)

/-- Result of a calibration call: the trace of effects performed on the
throwaway predictor before returning or raising, and the exception message if
one was raised. -/
structure CollectOutcome where
  events : List CalibEvent
  error : Option String
deriving DecidableEq, Repr

/-- Embeds `_collect_trt_shape_range_info`.  The throwaway predictor is
abstracted by its declared input names `inputNames` and the dtype `dtypeOf`
of each input handle; `dynamicShapes` and `inputData` embed the
`dynamic_shapes` and `dynamic_shape_input_data` arguments (a `none`
`inputData` embeds passing `None`, replaced by `{}` on entry).  The function
validates input-name coverage in both directions (raising `ValueError` at the
first offender), validates `dynamic_shape_input_data` names, builds the three
array dicts, then runs the feed loop over `[min_arrs, opt_arrs, opt_arrs,
max_arrs]`, running inference once after each dict is fed.  No explicit
flush/close is performed before returning (the source instead relies on the
garbage collection of `predictor`, per its own `HACK` comment). -/
def collect_trt_shape_range_info (inputNames : List String)
    (dtypeOf : String → PDDataType)
    (dynamicShapes : List (String × Shape3))
    (dynamicShapeInputData : Option (List (String × Data3))) : CollectOutcome :=
  let inputData := dynamicShapeInputData.getD []
  let dsNames := dynamicShapes.map Prod.fst
  match dsNames.find? (fun n => !(inputNames.contains n)) with
  | some n =>
    ⟨[], some ("Invalid input name " ++ n ++ " found in `dynamic_shapes`")⟩
  | none =>
    match inputNames.find? (fun n => !(dsNames.contains n)) with
    | some n =>
      ⟨[], some ("Input name " ++ n ++ " not found in `dynamic_shapes`")⟩
    | none =>
      match (inputData.map Prod.fst).find? (fun n => !(inputNames.contains n)) with
      | some n =>
        ⟨[], some
          ("Invalid input name " ++ n ++ " found in `dynamic_shape_input_data`")⟩
      | none =>
        match buildArrs dtypeOf dynamicShapes inputData with
        | .error e => ⟨[], some e⟩
        | .ok (minArrs, optArrs, maxArrs) =>
          ⟨feedPhase minArrs ++ feedPhase optArrs ++ feedPhase optArrs ++
            feedPhase maxArrs, none⟩

/-- The min-shape array dict that `_collect_trt_shape_range_info` builds from
a validated `dynamic_shapes` (one entry per name, keyed in insertion order,
with the declared min shape). -/
def minArrsOf (ds : List (String × Shape3)) : List (String × Shape) :=
  ds.map (fun p => (p.1, p.2.minS))

/-- The opt-shape array dict built from a validated `dynamic_shapes`. -/
def optArrsOf (ds : List (String × Shape3)) : List (String × Shape) :=
  ds.map (fun p => (p.1, p.2.optS))

/-- The max-shape array dict built from a validated `dynamic_shapes`. -/
def maxArrsOf (ds : List (String × Shape3)) : List (String × Shape) :=
  ds.map (fun p => (p.1, p.2.maxS))

/-- Embeds the `Input(min_input_shape=..., optim_input_shape=...,
max_input_shape=...)` descriptor built by `_convert_trt`. -/
structure TrtInput where
  min_input_shape : Shape
  optim_input_shape : Shape
  max_input_shape : Shape
deriving DecidableEq, Repr

/-- Embeds the precision map of `_convert_trt` (and, for the non-PIR route,
`PRECISION_MAP` in `_configure_trt`, which has the same keys): `none` embeds
the `KeyError` a lookup of any other mode raises. -/
def precisionOf (mode : String) : Option String :=
  if mode == "trt_int8" then some "INT8"
  else if mode == "trt_fp32" then some "FP32"
  else if mode == "trt_fp16" then some "FP16"
  else none

/-- Result of `_convert_trt`: `compiled` records the per-input shape
descriptors handed to the native `convert` call (in declared input-name
order) when compilation was invoked, `savePath` the `save_model_dir` it was
given, and `error` the exception raised, if any.  `compiled = none` means the
native accelerator compiler was never invoked. -/
structure ConvertOutcome where
  compiled : Option (List TrtInput)
  savePath : Option String
  error : Option String
deriving DecidableEq, Repr

/-- Embeds the `trt_inputs` building loop of `_convert_trt`: one `Input` per
declared input name, from `trt_dynamic_shapes[name]` (a missing key would be
a `KeyError`, embedded as `none`; unreachable after validation). -/
def buildTrtInputs (inputNames : List String)
    (trtDynamicShapes : List (String × Shape3)) : Option (List TrtInput) :=
  match inputNames with
  | [] => some []
  | name :: rest =>
    match trtDynamicShapes.find? (fun p => p.1 == name) with
    | none => none
    | some (_, s) =>
      match buildTrtInputs rest trtDynamicShapes with
      | none => none
      | some tl => some (⟨s.minS, s.optS, s.maxS⟩ :: tl)

/-- Embeds `_convert_trt`.  The model is abstracted by the declared input
names its throwaway predictor reports; `mode` is the requested run mode and
`trtSavePath` the target cache path.  Validates input-name coverage in both
directions (raising `ValueError` at the first offender) before anything else;
then builds the per-input shape descriptors, applies the per-model override
table (which only mutates compiler settings and is not modelled further),
looks up the precision mode (raising `KeyError` on an unknown mode), and
invokes the native `convert`. -/
def convert_trt (mode : String) (inputNames : List String)
    (trtSavePath : String)
    (trtDynamicShapes : List (String × Shape3)) : ConvertOutcome :=
  let dsNames := trtDynamicShapes.map Prod.fst
  match dsNames.find? (fun n => !(inputNames.contains n)) with
  | some n =>
    ⟨none, none, some
      ("Invalid input name " ++ n ++ " found in `trt_dynamic_shapes`")⟩
  | none =>
    match inputNames.find? (fun n => !(dsNames.contains n)) with
    | some n =>
      ⟨none, none, some
        ("Input name " ++ n ++ " not found in `trt_dynamic_shapes`")⟩
    | none =>
      match buildTrtInputs inputNames trtDynamicShapes with
      | none => ⟨none, none, some "KeyError"⟩
      | some ins =>
        match precisionOf mode with
        | none => ⟨none, none, some ("KeyError: " ++ mode)⟩
        | some _ => ⟨some ins, some trtSavePath, none⟩

/-- Python's `str.startswith`, embedded on the strings' character lists. -/
def pyStartsWith (s pre : String) : Bool := pre.data.isPrefixOf s.data

/-- Embeds the fields of `PaddlePredictorOption` that `static_infer.py`
reads or writes.  `device_id = none` embeds `None`. -/
structure PaddlePredictorOption where
  model_name : String
  device_type : String
  device_id : Option Nat
  run_mode : String
  trt_use_dynamic_shapes : Bool
  trt_collect_shape_range_info : Bool
  trt_discard_cached_shape_range_info : Bool
  trt_shape_range_info_path : Option String
  trt_dynamic_shapes : Option (List (String × Shape3))
  trt_dynamic_shape_input_data : Option (List (String × Data3))
  trt_allow_rebuild_at_runtime : Bool
deriving DecidableEq, Repr

/-- The filesystem as the set of existing file paths. -/
abbrev FS := List String

/-- The shape-range-info path `_configure_trt` resolves: the user-supplied
`trt_shape_range_info_path` if set, else `cache_dir / "shape_range_info.pbtxt"`. -/
def shapeRangePathOf (opt : PaddlePredictorOption) (cacheDir : String) : String :=
  match opt.trt_shape_range_info_path with
  | some p => p
  | none => cacheDir ++ "/shape_range_info.pbtxt"

/-- Result of `_configure_trt` (and of `_create`, which extends it with the
normalized option): the filesystem after the call, the number of native
calibration run sequences executed (`_collect_trt_shape_range_info`
invocations that reached the feed loop), the number of accelerator compiler
invocations (`convert` calls of the PIR route), the path handed to
`enable_tuned_tensorrt_dynamic_shape` when that was reached, and the
exception raised, if any. -/
structure TrtConfigOutcome where
  fs : FS
  calibSeqs : Nat
  converts : Nat
  tunedPath : Option String
  error : Option String
deriving DecidableEq, Repr

/-- Embeds the call of `_collect_trt_shape_range_info` inside
`_configure_trt`, together with the on-return persistence of the profile:
passing a `None` `trt_dynamic_shapes` raises a `TypeError` when the
calibrator iterates it; when the calibrator returns without raising, the
profile file exists at `path` (in CPython the throwaway predictor local is
finalized when the call returns, writing the file — see the calibrator's
`HACK` comment; the write is modelled at return). -/
def runCollect (opt : PaddlePredictorOption) (inputNames : List String)
    (dtypeOf : String → PDDataType) (path : String) (fs : FS) :
    TrtConfigOutcome :=
  match opt.trt_dynamic_shapes with
  | none => ⟨fs, 0, 0, none, some "TypeError: argument of type NoneType is not iterable"⟩
  | some ds =>
    let r := collect_trt_shape_range_info inputNames dtypeOf ds
      opt.trt_dynamic_shape_input_data
    match r.error with
    | some e => ⟨fs, 0, 0, none, some e⟩
    | none => ⟨path :: fs, 1, 0, some path, none⟩

/-- Embeds `StaticInfer._configure_trt`.  `usePirTrt` embeds the global
`USE_PIR_TRT` flag; the model is abstracted by its declared input names and
input dtypes; `cacheDir` is the cache directory the caller computed and
`modelFilePfx` the model filename stem.  The PIR route validates and invokes
the accelerator compiler (`_convert_trt`); the legacy route looks up the
precision map (raising `KeyError` for a non-trt mode), then, in
dynamic-shape + collect mode, resolves the profile path and applies the
caller cache policy: collect when the file is absent; delete then re-collect
when it exists and the discard flag is set; skip collection when it exists
and the flag is clear.  Configuration-object mutations that have no
observable effect outside the native config are not modelled. -/
def configure_trt (opt : PaddlePredictorOption) (usePirTrt : Bool)
    (inputNames : List String) (dtypeOf : String → PDDataType)
    (cacheDir modelFilePfx : String) (fs : FS) : TrtConfigOutcome :=
  if usePirTrt then
    let trtSavePath := cacheDir ++ "/trt/" ++ modelFilePfx
    match opt.trt_dynamic_shapes with
    | none => ⟨fs, 0, 0, none, some "TypeError: argument of type NoneType is not iterable"⟩
    | some ds =>
      let r := convert_trt opt.run_mode inputNames trtSavePath ds
      match r.error with
      | some e => ⟨fs, 0, 0, none, some e⟩
      | none => ⟨trtSavePath :: fs, 0, 1, none, none⟩
  else
    match precisionOf opt.run_mode with
    | none => ⟨fs, 0, 0, none, some ("KeyError: " ++ opt.run_mode)⟩
    | some _ =>
      if opt.trt_use_dynamic_shapes then
        if opt.trt_collect_shape_range_info then
          let path := shapeRangePathOf opt cacheDir
          if !(fs.contains path) then
            runCollect opt inputNames dtypeOf path fs
          else if opt.trt_discard_cached_shape_range_info then
            runCollect opt inputNames dtypeOf path (fs.erase path)
          else
            ⟨fs, 0, 0, some path, none⟩
        else
          match opt.trt_dynamic_shapes with
          | some _ => ⟨fs, 0, 0, none, none⟩
          | none => ⟨fs, 0, 0, none, some "No dynamic shape information provided"⟩
      else
        ⟨fs, 0, 0, none, none⟩

/-- Result of `StaticInfer._create`: the option record after the one-time
normalization (the only mutations `_create` performs on it), plus the
`_configure_trt` effects and the exception raised, if any. -/
structure CreateOutcome where
  opt : PaddlePredictorOption
  fs : FS
  calibSeqs : Nat
  converts : Nat
  error : Option String
deriving DecidableEq, Repr

/-- The device-type dispatch at the end of `_create`: every branch only
mutates the native config object; the trailing `else` asserts
`device_type == "cpu"`, so an unrecognized device type raises
`AssertionError`. -/
def deviceDispatch (opt : PaddlePredictorOption) (fs : FS)
    (calibSeqs converts : Nat) : CreateOutcome :=
  if opt.device_type == "gpu" || opt.device_type == "npu" ||
      opt.device_type == "xpu" || opt.device_type == "mlu" ||
      opt.device_type == "dcu" || opt.device_type == "cpu" then
    ⟨opt, fs, calibSeqs, converts, none⟩
  else
    ⟨opt, fs, calibSeqs, converts, some "AssertionError"⟩

/-- The one-time option normalization `_create` performs before anything
else (source lines 311-329): the `LaTeX_OCR_rec` model forces `run_mode` to
`"mkldnn"` unconditionally (the CPU-vendor probe only controls a warning),
and a `None` `device_id` is defaulted to `0` for gpu/dcu devices. -/
def normalizeOpt (o : PaddlePredictorOption) : PaddlePredictorOption :=
  let o1 := if o.model_name == "LaTeX_OCR_rec" then
      { o with run_mode := "mkldnn" }
    else o
  if (o1.device_type == "gpu" || o1.device_type == "dcu") &&
      o1.device_id.isNone then
    { o1 with device_id := some 0 }
  else o1

/-- Embeds `StaticInfer._create`.  `modelFound` embeds whether
`get_model_paths` found a Paddle model (else `RuntimeError`); `usePirTrt`
the global `USE_PIR_TRT` flag; the model is abstracted by its declared input
names and dtypes; `modelDir` and `modelFilePfx` locate the cache directory.
After the one-time normalization, if the (normalized) run mode starts with
`"trt"`, `assert device_type == "gpu"` (raising `AssertionError` otherwise)
and `_configure_trt` runs; finally the device-type dispatch configures the
backend and the native predictor is created. -/
def create (opt : PaddlePredictorOption) (modelFound usePirTrt : Bool)
    (inputNames : List String) (dtypeOf : String → PDDataType)
    (modelDir modelFilePfx : String) (fs : FS) : CreateOutcome :=
  if !modelFound then ⟨opt, fs, 0, 0, some "No valid Paddle model found"⟩
  else
    let opt := normalizeOpt opt
    if pyStartsWith opt.run_mode "trt" then
      if opt.device_type != "gpu" then ⟨opt, fs, 0, 0, some "AssertionError"⟩
      else
        let cacheDir := modelDir ++ "/.cache/paddle"
        let r := configure_trt opt usePirTrt inputNames dtypeOf cacheDir
          modelFilePfx fs
        match r.error with
        | some e => ⟨opt, r.fs, r.calibSeqs, r.converts, some e⟩
        | none => deviceDispatch opt r.fs r.calibSeqs r.converts
    else deviceDispatch opt fs 0 0

/-- Python's string comparison: lexicographic on the code-point sequence,
embedded as the lexicographic order on the strings' character lists. -/
def pyStrLe (a b : String) : Prop := a.data ≤ b.data

instance : DecidableRel pyStrLe := fun a b =>
  inferInstanceAs (Decidable (a.data ≤ b.data))

/-- Embeds `indices = sorted(range(len(names)), key=names.__getitem__)` from
`_sort_inputs`: Python's `sorted` is a stable comparison sort, embedded by
`List.insertionSort` (stable) on the index list, comparing indices by the
names they select. -/
def sortIndices (names : List String) : List Nat :=
  List.insertionSort
    (fun i j => pyStrLe (names.getD i "") (names.getD j ""))
    (List.range names.length)

/-- Embeds `_sort_inputs`: after computing `indices`, returns
`[inputs[indices.index(i)] for i in range(len(inputs))]`. -/
def sort_inputs {α : Type} [Inhabited α] (inputs : List α)
    (names : List String) : List α :=
  (List.range inputs.length).map
    (fun i => inputs.getD ((sortIndices names).indexOf i) default)

/-- The state of a constructed `StaticInfer` facade that `__call__` can
observe or affect: the normalized option record, the predictor's declared
input names, the native inference pipeline (`self.infer`, abstracted as the
function from the sorted input tensors to the output tensors), and the trace
of tensor lists handed to the pipeline by previous calls (one entry per
native invocation). -/
structure FacadeState (α : Type) where
  option : PaddlePredictorOption
  inputNames : List String
  nativeRun : List α → List α
  runTrace : List (List α)

/-- Embeds `StaticInfer.__call__`: reads the predictor's declared input
names, raises `ValueError` when the number of supplied tensors differs
(leaving the facade untouched and invoking nothing), else sorts the inputs
into declared order, makes each contiguous (`np.ascontiguousarray`, the
identity on the tensor values), and hands them to the pipeline, whose
invocation is recorded in the trace. -/
def staticInferCall {α : Type} [Inhabited α] (st : FacadeState α)
    (x : List α) : FacadeState α × Except String (List α) :=
  let names := st.inputNames
  if names.length != x.length then
    (st, .error ("The number of inputs does not match the model: " ++
      toString names.length ++ " vs " ++ toString x.length))
  else
    let x := sort_inputs x names
    ({ st with runTrace := st.runTrace ++ [x] }, .ok (st.nativeRun x))

/-! ### Theorems -/

/-- Claim C9: for every declared input element type, the conversion to a
portable numeric type succeeds exactly on the kinds the spec lists (32/64-bit
floating point and the signed/unsigned 8/32/64-bit integer kinds the native
enumeration declares), and every other declared kind raises the
unsupported-data-type error. -/
theorem dtype_mapping_supported_kinds :
    ∀ d : PDDataType,
      (pd_dtype_to_np_dtype d).toOption.isSome = specSupportedKind d ∧
        (specSupportedKind d = false →
          pd_dtype_to_np_dtype d = .error "Unsupported data type") := by
  intro d
  cases d <;>
    simp [pd_dtype_to_np_dtype, specSupportedKind, pdIsFloat, pdIsInteger,
      pdBitWidth, Except.toOption]

/-- Mapping each element of a duplicate-free list to its own first index
enumerates the positions in order. -/
theorem map_indexOf_self {α : Type} [DecidableEq α] (l : List α)
    (h : l.Nodup) : l.map (fun a => l.indexOf a) = List.range l.length := by
  induction l with
  | nil => rfl
  | cons a t ih =>
    have ha : a ∉ t := (List.nodup_cons.1 h).1
    have ht : t.Nodup := (List.nodup_cons.1 h).2
    have hmap : t.map (fun b => (a :: t).indexOf b) =
        (List.range t.length).map Nat.succ := by
      rw [← ih ht, List.map_map]
      apply List.map_congr_left
      intro x hx
      have hne : a ≠ x := fun e => ha (e ▸ hx)
      simp [List.indexOf_cons_ne _ hne, Nat.succ_eq_add_one]
    rw [List.map_cons, List.indexOf_cons_self, List.length_cons,
      List.range_succ_eq_map, hmap]

/-- Reading a list back at the indices `0, ..., length - 1` returns the list
itself. -/
theorem map_getD_range {α : Type} (l : List α) (d : α) :
    (List.range l.length).map (fun i => l.getD i d) = l := by
  induction l with
  | nil => rfl
  | cons a t ih =>
    have hmap : (List.range t.length).map ((fun i => (a :: t).getD i d) ∘ Nat.succ) =
        (List.range t.length).map (fun i => t.getD i d) := by
      apply List.map_congr_left
      intro x _
      simp [List.getD_cons_succ]
    rw [List.length_cons, List.range_succ_eq_map, List.map_cons, List.map_map,
      hmap, ih]
    simp [List.getD_cons_zero]

/-- The index list `sorted(range(len(names)), key=...)` is a permutation of
`range(len(names))`. -/
theorem sortIndices_perm (names : List String) :
    (sortIndices names).Perm (List.range names.length) :=
  List.perm_insertionSort _ _

/-- Claim C10: for input lists of matching length, `_sort_inputs` returns a
permutation of its input tensor list — no tensor is dropped or duplicated —
and in particular the result has the same length. -/
theorem sort_inputs_is_permutation {α : Type} [Inhabited α]
    (inputs : List α) (names : List String)
    (h : inputs.length = names.length) :
    (sort_inputs inputs names).Perm inputs ∧
      (sort_inputs inputs names).length = inputs.length := by
  have hperm : (sortIndices names).Perm (List.range names.length) :=
    sortIndices_perm names
  have hnd : (sortIndices names).Nodup :=
    hperm.nodup_iff.2 (List.nodup_range names.length)
  have hlen : (sortIndices names).length = names.length := by
    simpa using hperm.length_eq
  have key : ((List.range names.length).map
      (fun i => (sortIndices names).indexOf i)).Perm
      (List.range names.length) := by
    have h1 : ((sortIndices names).map
        (fun i => (sortIndices names).indexOf i)) =
        List.range (sortIndices names).length :=
      map_indexOf_self (sortIndices names) hnd
    have h2 := (hperm.symm).map (fun i => (sortIndices names).indexOf i)
    rw [h1, hlen] at h2
    exact h2
  have e1 : sort_inputs inputs names =
      ((List.range names.length).map
        (fun i => (sortIndices names).indexOf i)).map
        (fun j => inputs.getD j default) := by
    rw [sort_inputs, List.map_map, h]
    rfl
  have e2 : (List.range names.length).map (fun j => inputs.getD j default) =
      inputs := by
    rw [← h]
    exact map_getD_range inputs default
  have hp : (sort_inputs inputs names).Perm inputs := by
    rw [e1]
    have h3 := key.map (fun j => inputs.getD j default)
    rwa [e2] at h3
  exact ⟨hp, hp.length_eq⟩

/-- Claim C10 witness at a concrete input. -/
theorem sort_inputs_is_permutation_witness :
    (sort_inputs [10, 20, 30] ["c", "a", "b"]).Perm [10, 20, 30] ∧
      (sort_inputs [10, 20, 30] ["c", "a", "b"]).length = 3 :=
  sort_inputs_is_permutation [10, 20, 30] ["c", "a", "b"] rfl

/-- Claim C9 witness at a concrete unsupported kind. -/
theorem dtype_mapping_supported_kinds_witness :
    (pd_dtype_to_np_dtype PDDataType.FLOAT16).toOption.isSome =
        specSupportedKind PDDataType.FLOAT16 ∧
      pd_dtype_to_np_dtype PDDataType.FLOAT16 = .error "Unsupported data type" :=
  ⟨(dtype_mapping_supported_kinds PDDataType.FLOAT16).1,
    (dtype_mapping_supported_kinds PDDataType.FLOAT16).2 rfl⟩

/-- A concrete option record used by concrete facades and witnesses. -/
def optCpu : PaddlePredictorOption :=
  ⟨"m", "cpu", none, "paddle", false, false, false, none, none, none, false⟩

/-- A concrete facade whose predictor declares the input order `[b, a]` and
whose pipeline is the identity. -/
def facadeBA : FacadeState Nat :=
  ⟨optCpu, ["b", "a"], fun x => x, []⟩

/-- Claim C5: for a facade whose predictor declares the input order `[b, a]`
and a caller supplying the tensors sorted by name (`[a, b]` order),
`__call__` hands the pipeline the tensors reordered into the declared order
`[b, a]`, and that is what the native invocation receives. -/
theorem call_reorders_inputs_to_declared_order {α : Type} [Inhabited α]
    (st : FacadeState α) (ta tb : α) (h : st.inputNames = ["b", "a"]) :
    (staticInferCall st [ta, tb]).2 = .ok (st.nativeRun [tb, ta]) ∧
      (staticInferCall st [ta, tb]).1.runTrace = st.runTrace ++ [[tb, ta]] := by
  have hba : ¬ (['b'] ≤ ['a']) := by decide
  have hs : sort_inputs [ta, tb] ["b", "a"] = [tb, ta] := by
    simp [sort_inputs, sortIndices, List.insertionSort, List.orderedInsert,
      pyStrLe, hba, List.range_succ]
  simp [staticInferCall, h, hs]

/-- Claim C5 witness: concrete facade and tensors. -/
theorem call_reorders_inputs_witness :
    (staticInferCall facadeBA [10, 20]).2 = .ok (facadeBA.nativeRun [20, 10]) ∧
      (staticInferCall facadeBA [10, 20]).1.runTrace =
        facadeBA.runTrace ++ [[20, 10]] :=
  call_reorders_inputs_to_declared_order facadeBA 10 20 rfl

/-- Claim C6: a `run()` call whose tensor count differs from the declared
input count raises the input-count-mismatch `ValueError`, leaves the facade
state (including the trace of native invocations) unchanged, and the facade
services later well-formed calls. -/
theorem call_input_count_mismatch_raises {α : Type} [Inhabited α]
    (st : FacadeState α) (x : List α)
    (h : st.inputNames.length ≠ x.length) :
    (staticInferCall st x).1 = st ∧
      (staticInferCall st x).2 =
        .error ("The number of inputs does not match the model: " ++
          toString st.inputNames.length ++ " vs " ++ toString x.length) ∧
      (staticInferCall st x).1.runTrace = st.runTrace ∧
      (∀ y : List α, y.length = st.inputNames.length →
        ((staticInferCall (staticInferCall st x).1 y).2).toOption.isSome = true) := by
  have hb : (st.inputNames.length != x.length) = true := by
    simpa using h
  refine ⟨?_, ?_, ?_, ?_⟩
  · simp [staticInferCall, hb]
  · simp [staticInferCall, hb]
  · simp [staticInferCall, hb]
  · intro y hy
    have hb2 : (st.inputNames.length != y.length) = false := by
      simp [hy]
    simp [staticInferCall, hb, hb2, Except.toOption]

/-- Claim C6 witness: a one-tensor call against a two-input facade fails and
leaves the facade usable. -/
theorem call_input_count_mismatch_witness :
    (staticInferCall facadeBA [5]).1 = facadeBA ∧
      ((staticInferCall (staticInferCall facadeBA [5]).1 [1, 2]).2).toOption.isSome
        = true :=
  ⟨(call_input_count_mismatch_raises facadeBA [5] (by decide)).1,
    (call_input_count_mismatch_raises facadeBA [5] (by decide)).2.2.2 [1, 2] rfl⟩

/-- A feed phase runs inference exactly once. -/
theorem feedPhase_count_run (l : List (String × Shape)) :
    (feedPhase l).count CalibEvent.run = 1 := by
  have h0 : (l.map (fun p => CalibEvent.feed p.1 p.2)).count CalibEvent.run = 0 := by
    rw [List.count_eq_zero]
    intro hmem
    rcases List.mem_map.1 hmem with ⟨p, _, hp⟩
    exact CalibEvent.noConfusion hp
  simp [feedPhase, List.count_append, h0]

/-- A feed phase contains no flush event. -/
theorem flush_not_mem_feedPhase (l : List (String × Shape)) :
    CalibEvent.flush ∉ feedPhase l := by
  intro hmem
  rcases List.mem_append.1 hmem with h | h
  · rcases List.mem_map.1 h with ⟨p, _, hp⟩
    exact CalibEvent.noConfusion hp
  · rcases List.mem_singleton.1 h with h
    exact CalibEvent.noConfusion h

/-- When the array-building loop succeeds, the three array dicts carry, per
`dynamic_shapes` entry in order, exactly the declared min/opt/max shapes. -/
theorem buildArrs_ok_shapes (dtypeOf : String → PDDataType)
    (ds : List (String × Shape3)) (idata : List (String × Data3))
    (t : List (String × Shape) × List (String × Shape) × List (String × Shape))
    (h : buildArrs dtypeOf ds idata = .ok t) :
    t.1 = minArrsOf ds ∧ t.2.1 = optArrsOf ds ∧ t.2.2 = maxArrsOf ds := by
  induction ds generalizing t with
  | nil =>
    simp only [buildArrs, Except.ok.injEq] at h
    subst h
    simp [minArrsOf, optArrsOf, maxArrsOf]
  | cons p rest ih =>
    obtain ⟨name, shapes⟩ := p
    cases hdt : pd_dtype_to_np_dtype (dtypeOf name) with
    | error e =>
      simp only [buildArrs, hdt] at h
      exact Except.noConfusion h
    | ok np =>
      cases hb : buildArrs dtypeOf rest idata with
      | error e =>
        simp only [buildArrs, hdt, hb] at h
        split at h <;> exact Except.noConfusion h
      | ok t' =>
        obtain ⟨mins, opts, maxs⟩ := t'
        simp only [buildArrs, hdt, hb] at h
        split at h
        · injection h with h
          subst h
          have i1 : mins = minArrsOf rest := (ih (mins, opts, maxs) hb).1
          have i2 : opts = optArrsOf rest := (ih (mins, opts, maxs) hb).2.1
          have i3 : maxs = maxArrsOf rest := (ih (mins, opts, maxs) hb).2.2
          simp [minArrsOf, optArrsOf, maxArrsOf, i1, i2, i3]
        · exact Except.noConfusion h

/-- Claim C1: whenever the calibrator returns without raising, the throwaway
predictor is fed exactly the four array dicts `[min, opt, opt, max]` (the
opt shapes twice), with one inference run after each dict, for exactly four
inference runs in total. -/
theorem calibration_feed_sequence (inputNames : List String)
    (dtypeOf : String → PDDataType) (ds : List (String × Shape3))
    (data : Option (List (String × Data3)))
    (h : (collect_trt_shape_range_info inputNames dtypeOf ds data).error = none) :
    (collect_trt_shape_range_info inputNames dtypeOf ds data).events =
      feedPhase (minArrsOf ds) ++ feedPhase (optArrsOf ds) ++
        feedPhase (optArrsOf ds) ++ feedPhase (maxArrsOf ds) ∧
      (collect_trt_shape_range_info inputNames dtypeOf ds data).events.count
        CalibEvent.run = 4 := by
  cases h1 : (ds.map Prod.fst).find? (fun n => !(inputNames.contains n)) with
  | some n =>
    simp only [collect_trt_shape_range_info, h1] at h
    exact Option.noConfusion h
  | none =>
    cases h2 : inputNames.find? (fun n => !((ds.map Prod.fst).contains n)) with
    | some n =>
      simp only [collect_trt_shape_range_info, h1, h2] at h
      exact Option.noConfusion h
    | none =>
      cases h3 : ((data.getD []).map Prod.fst).find?
          (fun n => !(inputNames.contains n)) with
      | some n =>
        simp only [collect_trt_shape_range_info, h1, h2, h3] at h
        exact Option.noConfusion h
      | none =>
        cases hb : buildArrs dtypeOf ds (data.getD []) with
        | error e =>
          simp only [collect_trt_shape_range_info, h1, h2, h3, hb] at h
          exact Option.noConfusion h
        | ok t =>
          obtain ⟨mins, opts, maxs⟩ := t
          have e1 : mins = minArrsOf ds :=
            (buildArrs_ok_shapes dtypeOf ds (data.getD []) (mins, opts, maxs) hb).1
          have e2 : opts = optArrsOf ds :=
            (buildArrs_ok_shapes dtypeOf ds (data.getD []) (mins, opts, maxs) hb).2.1
          have e3 : maxs = maxArrsOf ds :=
            (buildArrs_ok_shapes dtypeOf ds (data.getD []) (mins, opts, maxs) hb).2.2
          constructor
          · simp only [collect_trt_shape_range_info, h1, h2, h3, hb, e1, e2, e3]
          · simp only [collect_trt_shape_range_info, h1, h2, h3, hb]
            simp [List.count_append, feedPhase_count_run]

/-- Claim C1 witness: a concrete single-input calibration. -/
theorem calibration_feed_sequence_witness :
    (collect_trt_shape_range_info ["x"] (fun _ => PDDataType.FLOAT32)
        [("x", ⟨[1], [2], [3]⟩)] none).events =
      feedPhase (minArrsOf [("x", ⟨[1], [2], [3]⟩)]) ++
        feedPhase (optArrsOf [("x", ⟨[1], [2], [3]⟩)]) ++
        feedPhase (optArrsOf [("x", ⟨[1], [2], [3]⟩)]) ++
        feedPhase (maxArrsOf [("x", ⟨[1], [2], [3]⟩)]) ∧
      (collect_trt_shape_range_info ["x"] (fun _ => PDDataType.FLOAT32)
        [("x", ⟨[1], [2], [3]⟩)] none).events.count CalibEvent.run = 4 :=
  calibration_feed_sequence ["x"] (fun _ => PDDataType.FLOAT32)
    [("x", ⟨[1], [2], [3]⟩)] none (by decide)

/-- Claim C2: whenever the key set of the dynamic-shape configuration
differs from the declared input-name set in either direction, both the
calibrator and the accelerator compiler raise the input-name-mismatch
`ValueError` before any shape feeding (the calibration trace is empty) or
compilation (the native compiler is never invoked). -/
theorem dynamic_shape_name_mismatch_raises (inputNames : List String)
    (dtypeOf : String → PDDataType) (ds : List (String × Shape3))
    (data : Option (List (String × Data3))) (mode savePath : String)
    (h : (∃ n ∈ ds.map Prod.fst, n ∉ inputNames) ∨
      ∃ n ∈ inputNames, n ∉ ds.map Prod.fst) :
    ((collect_trt_shape_range_info inputNames dtypeOf ds data).error.isSome = true ∧
      (collect_trt_shape_range_info inputNames dtypeOf ds data).events = []) ∧
      ((convert_trt mode inputNames savePath ds).error.isSome = true ∧
        (convert_trt mode inputNames savePath ds).compiled = none) := by
  cases h1 : (ds.map Prod.fst).find? (fun n => !(inputNames.contains n)) with
  | some n =>
    refine ⟨⟨?_, ?_⟩, ?_, ?_⟩ <;>
      · simp only [collect_trt_shape_range_info, convert_trt, h1]
        try rfl
  | none =>
    have hall : ∀ n ∈ ds.map Prod.fst, n ∈ inputNames := by
      intro n hn
      have := List.find?_eq_none.1 h1 n hn
      simpa using this
    have hex : ∃ n ∈ inputNames, n ∉ ds.map Prod.fst := by
      rcases h with h | h
      · rcases h with ⟨n, hn, hnot⟩
        exact absurd (hall n hn) hnot
      · exact h
    rcases hex with ⟨n, hn, hnot⟩
    have h2 : (inputNames.find? (fun n => !((ds.map Prod.fst).contains n))).isSome := by
      rw [List.find?_isSome]
      exact ⟨n, hn, by simpa using hnot⟩
    rcases Option.isSome_iff_exists.1 h2 with ⟨m, hm⟩
    refine ⟨⟨?_, ?_⟩, ?_, ?_⟩ <;>
      · simp only [collect_trt_shape_range_info, convert_trt, h1, hm]
        try rfl

/-- Claim C2 witness: a declared input `x` missing from the key set. -/
theorem dynamic_shape_name_mismatch_witness :
    ((collect_trt_shape_range_info ["x"] (fun _ => PDDataType.FLOAT32)
        [("y", ⟨[1], [2], [3]⟩)] none).error.isSome = true ∧
      (collect_trt_shape_range_info ["x"] (fun _ => PDDataType.FLOAT32)
        [("y", ⟨[1], [2], [3]⟩)] none).events = []) ∧
      ((convert_trt "trt_fp32" ["x"] "save" [("y", ⟨[1], [2], [3]⟩)]).error.isSome
          = true ∧
        (convert_trt "trt_fp32" ["x"] "save" [("y", ⟨[1], [2], [3]⟩)]).compiled
          = none) :=
  dynamic_shape_name_mismatch_raises ["x"] (fun _ => PDDataType.FLOAT32)
    [("y", ⟨[1], [2], [3]⟩)] none "trt_fp32" "save" (by decide)

/-- Claim C4: no run of the calibrator ever performs an explicit flush/close
of the shape-range profile before returning — the trace of a calibration
call, raising or not, never contains the flush effect (the source relies on
the implicit finalization of the throwaway predictor instead, as its own
`HACK` comment records). -/
theorem calibration_performs_no_explicit_flush (inputNames : List String)
    (dtypeOf : String → PDDataType) (ds : List (String × Shape3))
    (data : Option (List (String × Data3))) :
    CalibEvent.flush ∉
      (collect_trt_shape_range_info inputNames dtypeOf ds data).events := by
  cases h1 : (ds.map Prod.fst).find? (fun n => !(inputNames.contains n)) with
  | some n =>
    simp only [collect_trt_shape_range_info, h1]
    exact List.not_mem_nil _
  | none =>
    cases h2 : inputNames.find? (fun n => !((ds.map Prod.fst).contains n)) with
    | some n =>
      simp only [collect_trt_shape_range_info, h1, h2]
      exact List.not_mem_nil _
    | none =>
      cases h3 : ((data.getD []).map Prod.fst).find?
          (fun n => !(inputNames.contains n)) with
      | some n =>
        simp only [collect_trt_shape_range_info, h1, h2, h3]
        exact List.not_mem_nil _
      | none =>
        cases hb : buildArrs dtypeOf ds (data.getD []) with
        | error e =>
          simp only [collect_trt_shape_range_info, h1, h2, h3, hb]
          exact List.not_mem_nil _
        | ok t =>
          obtain ⟨mins, opts, maxs⟩ := t
          simp only [collect_trt_shape_range_info, h1, h2, h3, hb]
          intro hmem
          simp only [List.mem_append] at hmem
          rcases hmem with ((hm | hm) | hm) | hm <;>
            exact flush_not_mem_feedPhase _ hm

/-- A calibration invocation that returns without raising executes exactly
one native run sequence and writes the profile file at `path`. -/
theorem runCollect_error_none (opt : PaddlePredictorOption)
    (inputNames : List String) (dtypeOf : String → PDDataType)
    (path : String) (fs : FS)
    (h : (runCollect opt inputNames dtypeOf path fs).error = none) :
    (runCollect opt inputNames dtypeOf path fs).calibSeqs = 1 ∧
      (runCollect opt inputNames dtypeOf path fs).fs = path :: fs := by
  cases hds : opt.trt_dynamic_shapes with
  | none =>
    simp only [runCollect, hds] at h
    exact Option.noConfusion h
  | some ds =>
    cases hr : (collect_trt_shape_range_info inputNames dtypeOf ds
        opt.trt_dynamic_shape_input_data).error with
    | some e =>
      simp only [runCollect, hds, hr] at h
      exact Option.noConfusion h
    | none =>
      constructor <;> simp only [runCollect, hds, hr]

/-- Claim C3: caller cache policy of the profile-driven accelerator route.
With dynamic shapes and shape-range collection requested (and a recognized
accelerator run mode): (i) if the profile file already exists and the discard
flag is clear, calibration is skipped entirely — no native run sequence, the
filesystem untouched, no error; (ii) if the file exists and the discard flag
is set, the file is deleted and the profile regenerated by exactly one native
run sequence; (iii) any non-raising call leaves the profile present at its
path; hence (iv) a second call with the discard flag clear performs no second
native run sequence. -/
theorem shape_range_profile_cache_policy (opt : PaddlePredictorOption)
    (inputNames : List String) (dtypeOf : String → PDDataType)
    (cacheDir mfp : String) (fs : FS)
    (hdyn : opt.trt_use_dynamic_shapes = true)
    (hcol : opt.trt_collect_shape_range_info = true)
    (hprec : (precisionOf opt.run_mode).isSome = true) :
    (fs.contains (shapeRangePathOf opt cacheDir) = true →
      opt.trt_discard_cached_shape_range_info = false →
      configure_trt opt false inputNames dtypeOf cacheDir mfp fs =
        ⟨fs, 0, 0, some (shapeRangePathOf opt cacheDir), none⟩) ∧
    (fs.contains (shapeRangePathOf opt cacheDir) = true →
      opt.trt_discard_cached_shape_range_info = true →
      (configure_trt opt false inputNames dtypeOf cacheDir mfp fs).error = none →
      (configure_trt opt false inputNames dtypeOf cacheDir mfp fs).calibSeqs = 1 ∧
      (configure_trt opt false inputNames dtypeOf cacheDir mfp fs).fs =
        shapeRangePathOf opt cacheDir ::
          fs.erase (shapeRangePathOf opt cacheDir)) ∧
    ((configure_trt opt false inputNames dtypeOf cacheDir mfp fs).error = none →
      (configure_trt opt false inputNames dtypeOf cacheDir mfp fs).fs.contains
        (shapeRangePathOf opt cacheDir) = true) ∧
    ((configure_trt opt false inputNames dtypeOf cacheDir mfp fs).error = none →
      (configure_trt { opt with trt_discard_cached_shape_range_info := false }
        false inputNames dtypeOf cacheDir mfp
        (configure_trt opt false inputNames dtypeOf cacheDir mfp fs).fs).calibSeqs
        = 0) := by
  rcases Option.isSome_iff_exists.1 hprec with ⟨prec, hpe⟩
  have hred : ∀ (o : PaddlePredictorOption) (fs' : FS),
      o.trt_use_dynamic_shapes = true → o.trt_collect_shape_range_info = true →
      precisionOf o.run_mode = some prec →
      configure_trt o false inputNames dtypeOf cacheDir mfp fs' =
        (if !(fs'.contains (shapeRangePathOf o cacheDir)) then
          runCollect o inputNames dtypeOf (shapeRangePathOf o cacheDir) fs'
        else if o.trt_discard_cached_shape_range_info then
          runCollect o inputNames dtypeOf (shapeRangePathOf o cacheDir)
            (fs'.erase (shapeRangePathOf o cacheDir))
        else ⟨fs', 0, 0, some (shapeRangePathOf o cacheDir), none⟩) := by
    intro o fs' h1 h2 h3
    simp only [configure_trt, h1, h2, h3, Bool.false_eq_true, if_false, if_true]
  have main := hred opt fs hdyn hcol hpe
  refine ⟨?_, ?_, ?_, ?_⟩
  · intro hc hdis
    rw [main, hc]
    simp [hdis]
  · intro hc hdis herr
    rw [main, hc] at herr ⊢
    simp only [Bool.not_true, Bool.false_eq_true, if_false, hdis, if_true] at herr ⊢
    exact runCollect_error_none opt inputNames dtypeOf _ _ herr
  · intro herr
    rw [main] at herr ⊢
    by_cases hc : fs.contains (shapeRangePathOf opt cacheDir)
    · rw [hc] at herr ⊢
      by_cases hdis : opt.trt_discard_cached_shape_range_info
      · simp only [hdis, Bool.not_true, Bool.false_eq_true, if_false, if_true]
          at herr ⊢
        have := (runCollect_error_none opt inputNames dtypeOf _ _ herr).2
        rw [this]
        simp
      · simp only [hdis, Bool.not_true, Bool.false_eq_true, if_false] at herr ⊢
        exact hc
    · have hc' : fs.contains (shapeRangePathOf opt cacheDir) = false := by
        simpa using hc
      rw [hc'] at herr ⊢
      simp only [Bool.not_false, if_true] at herr ⊢
      have := (runCollect_error_none opt inputNames dtypeOf _ _ herr).2
      rw [this]
      simp
  · intro herr
    have hcontains : (configure_trt opt false inputNames dtypeOf cacheDir mfp
        fs).fs.contains (shapeRangePathOf opt cacheDir) = true := by
      rw [main] at herr ⊢
      by_cases hc : fs.contains (shapeRangePathOf opt cacheDir)
      · rw [hc] at herr ⊢
        by_cases hdis : opt.trt_discard_cached_shape_range_info
        · simp only [hdis, Bool.not_true, Bool.false_eq_true, if_false, if_true]
            at herr ⊢
          have := (runCollect_error_none opt inputNames dtypeOf _ _ herr).2
          rw [this]
          simp
        · simp only [hdis, Bool.not_true, Bool.false_eq_true, if_false] at herr ⊢
          exact hc
      · have hc' : fs.contains (shapeRangePathOf opt cacheDir) = false := by
          simpa using hc
        rw [hc'] at herr ⊢
        simp only [Bool.not_false, if_true] at herr ⊢
        have := (runCollect_error_none opt inputNames dtypeOf _ _ herr).2
        rw [this]
        simp
    have hpath : shapeRangePathOf
        { opt with trt_discard_cached_shape_range_info := false } cacheDir =
        shapeRangePathOf opt cacheDir := rfl
    have h2 := hred { opt with trt_discard_cached_shape_range_info := false }
      ((configure_trt opt false inputNames dtypeOf cacheDir mfp fs).fs)
      hdyn hcol hpe
    rw [h2, hpath, hcontains]
    simp

/-- The device-type dispatch never changes the option record. -/
theorem deviceDispatch_opt (o : PaddlePredictorOption) (fs : FS)
    (c v : Nat) : (deviceDispatch o fs c v).opt = o := by
  simp only [deviceDispatch]
  split <;> rfl

/-- With the model found, `_create` returns the normalized option record,
whatever else happens. -/
theorem create_found_opt (o : PaddlePredictorOption) (pir : Bool)
    (inputNames : List String) (dtypeOf : String → PDDataType)
    (md mfp : String) (fs : FS) :
    (create o true pir inputNames dtypeOf md mfp fs).opt = normalizeOpt o := by
  simp only [create, Bool.not_true, Bool.false_eq_true, if_false]
  split
  · split
    · rfl
    · split
      · rfl
      · exact deviceDispatch_opt _ _ _ _
  · exact deviceDispatch_opt _ _ _ _

/-- Normalization defaults an unset `device_id` to `0` on gpu/dcu. -/
theorem normalizeOpt_device_id_default (o : PaddlePredictorOption)
    (hdev : o.device_type = "gpu" ∨ o.device_type = "dcu")
    (hid : o.device_id = none) :
    (normalizeOpt o).device_id = some 0 := by
  unfold normalizeOpt
  cases hml : (o.model_name == "LaTeX_OCR_rec") <;>
    rcases hdev with h | h <;> simp [hml, h, hid]

/-- Normalization never touches a `device_id` that is already set. -/
theorem normalizeOpt_device_id_some (o : PaddlePredictorOption) (n : Nat)
    (hid : o.device_id = some n) : (normalizeOpt o).device_id = some n := by
  unfold normalizeOpt
  cases hml : (o.model_name == "LaTeX_OCR_rec") <;> simp [hml, hid]

/-- Claim C8: for gpu/dcu devices with `device_id` unset, construction fixes
the effective `device_id` to `0` (before the native predictor is built, since
the returned option is the one predictor construction reads); a `device_id`
that is already set is never modified; and no `run()` call ever mutates the
facade's option record, so the value is unchanged across construction and
every subsequent call. -/
theorem device_id_defaulted_once_and_stable {α : Type} [Inhabited α]
    (opt : PaddlePredictorOption) (pir : Bool) (inputNames : List String)
    (dtypeOf : String → PDDataType) (md mfp : String) (fs : FS) :
    ((opt.device_type = "gpu" ∨ opt.device_type = "dcu") →
      opt.device_id = none →
      (create opt true pir inputNames dtypeOf md mfp fs).opt.device_id = some 0) ∧
      (∀ n : Nat, opt.device_id = some n →
        (create opt true pir inputNames dtypeOf md mfp fs).opt.device_id = some n) ∧
      (∀ (st : FacadeState α) (x : List α),
        (staticInferCall st x).1.option = st.option) := by
  refine ⟨?_, ?_, ?_⟩
  · intro hdev hid
    rw [create_found_opt]
    exact normalizeOpt_device_id_default opt hdev hid
  · intro n hid
    rw [create_found_opt]
    exact normalizeOpt_device_id_some opt n hid
  · intro st x
    simp only [staticInferCall]
    split <;> rfl

/-- A concrete gpu option with `device_id` unset. -/
def optGpuUnset : PaddlePredictorOption :=
  ⟨"m", "gpu", none, "paddle", false, false, false, none, none, none, false⟩

/-- A concrete dcu option with `device_id` already set to `7`. -/
def optDcuSet : PaddlePredictorOption :=
  ⟨"m", "dcu", some 7, "paddle", false, false, false, none, none, none, false⟩

/-- Claim C8 witness: concrete defaulting, preservation, and `run()`
stability. -/
theorem device_id_defaulted_witness :
    (create optGpuUnset true false ["x"] (fun _ => PDDataType.FLOAT32)
        "m" "inference" []).opt.device_id = some 0 ∧
      (create optDcuSet true false ["x"] (fun _ => PDDataType.FLOAT32)
        "m" "inference" []).opt.device_id = some 7 ∧
      (staticInferCall facadeBA [1, 2]).1.option = facadeBA.option :=
  ⟨(@device_id_defaulted_once_and_stable Nat _ optGpuUnset false ["x"]
      (fun _ => PDDataType.FLOAT32) "m" "inference" []).1 (Or.inl rfl) rfl,
    (@device_id_defaulted_once_and_stable Nat _ optDcuSet false ["x"]
      (fun _ => PDDataType.FLOAT32) "m" "inference" []).2.1 7 rfl,
    (@device_id_defaulted_once_and_stable Nat _ optGpuUnset false ["x"]
      (fun _ => PDDataType.FLOAT32) "m" "inference" []).2.2 facadeBA [1, 2]⟩

/-- An option requesting accelerator compilation (`trt_fp32`) on a non-gpu
device for the `LaTeX_OCR_rec` model. -/
def optLatexTrtCpu : PaddlePredictorOption :=
  ⟨"LaTeX_OCR_rec", "cpu", none, "trt_fp32", false, false, false, none, none,
    none, false⟩

/-- Claim C7 counterexample: an option whose `run_mode` requests accelerator
compilation and whose `device_type` is not gpu for which construction
nevertheless succeeds — the per-model override for `LaTeX_OCR_rec` rewrites
`run_mode` to `"mkldnn"` before the gpu assertion is ever evaluated, so no
error is raised. -/
theorem trt_non_gpu_latex_counterexample :
    pyStartsWith optLatexTrtCpu.run_mode "trt" = true ∧
      optLatexTrtCpu.device_type ≠ "gpu" ∧
      (create optLatexTrtCpu true false ["x"] (fun _ => PDDataType.FLOAT32)
        "m" "inference" []).error = none := by
  refine ⟨by decide, by decide, by decide⟩

/-- Claim C7 (amended): for every option whose `run_mode` requests
accelerator compilation, whose `device_type` is not gpu, and whose model is
not subject to the `LaTeX_OCR_rec` run-mode override, construction raises
the backend-unavailable assertion, and neither the calibrator nor the
accelerator compiler is ever invoked (and the filesystem is untouched). -/
theorem trt_on_non_gpu_raises (opt : PaddlePredictorOption) (pir : Bool)
    (inputNames : List String) (dtypeOf : String → PDDataType)
    (md mfp : String) (fs : FS)
    (hrm : pyStartsWith opt.run_mode "trt" = true)
    (hdev : opt.device_type ≠ "gpu")
    (hname : opt.model_name ≠ "LaTeX_OCR_rec") :
    (create opt true pir inputNames dtypeOf md mfp fs).error =
        some "AssertionError" ∧
      (create opt true pir inputNames dtypeOf md mfp fs).calibSeqs = 0 ∧
      (create opt true pir inputNames dtypeOf md mfp fs).converts = 0 ∧
      (create opt true pir inputNames dtypeOf md mfp fs).fs = fs := by
  have hml : (opt.model_name == "LaTeX_OCR_rec") = false := by
    simpa using hname
  have hnr : (normalizeOpt opt).run_mode = opt.run_mode := by
    unfold normalizeOpt
    simp only [hml, Bool.false_eq_true, if_false]
    split <;> rfl
  have hnd : (normalizeOpt opt).device_type = opt.device_type := by
    unfold normalizeOpt
    simp only [hml, Bool.false_eq_true, if_false]
    split <;> rfl
  have hne : ((normalizeOpt opt).device_type != "gpu") = true := by
    rw [hnd]
    simpa using hdev
  refine ⟨?_, ?_, ?_, ?_⟩ <;>
    simp only [create, Bool.not_true, Bool.false_eq_true, if_false, hnr, hrm,
      if_true, hne]

/-- A non-`LaTeX_OCR_rec` option requesting accelerator compilation on a cpu
device. -/
def optTrtCpu : PaddlePredictorOption :=
  ⟨"m", "cpu", none, "trt_fp16", false, false, false, none, none, none, false⟩

/-- Claim C7 (amended) witness at a concrete option. -/
theorem trt_on_non_gpu_raises_witness :
    (create optTrtCpu true false ["x"] (fun _ => PDDataType.FLOAT32)
        "m" "inference" []).error = some "AssertionError" ∧
      (create optTrtCpu true false ["x"] (fun _ => PDDataType.FLOAT32)
        "m" "inference" []).calibSeqs = 0 ∧
      (create optTrtCpu true false ["x"] (fun _ => PDDataType.FLOAT32)
        "m" "inference" []).converts = 0 ∧
      (create optTrtCpu true false ["x"] (fun _ => PDDataType.FLOAT32)
        "m" "inference" []).fs = [] :=
  trt_on_non_gpu_raises optTrtCpu false ["x"] (fun _ => PDDataType.FLOAT32)
    "m" "inference" [] (by decide) (by decide) (by decide)

/-- A concrete profile-route option: accelerator mode `trt_fp16`, dynamic
shapes declared, shape-range collection requested, user-supplied profile
path `p`, discard flag clear. -/
def optTrtProfile : PaddlePredictorOption :=
  ⟨"m", "gpu", some 0, "trt_fp16", true, true, false, some "p",
    some [("x", ⟨[1], [2], [3]⟩)], none, false⟩

/-- Claim C3 witness: with the profile already on disk and no invalidation
requested, the configuration call performs no native run sequence and leaves
the filesystem untouched. -/
theorem shape_range_profile_cache_policy_witness :
    configure_trt optTrtProfile false ["x"] (fun _ => PDDataType.FLOAT32)
      "cache" "inference" ["p"] = ⟨["p"], 0, 0, some "p", none⟩ :=
  (shape_range_profile_cache_policy optTrtProfile ["x"]
    (fun _ => PDDataType.FLOAT32) "cache" "inference" ["p"] (by decide)
    (by decide) (by decide)).1 (by decide) (by decide)

end StaticInferModel
